import Mathlib

/-!
Verification of `arch/arm/mach-GM/include/mach/platform-GM8181/vmalloc.h`
from the aircam-openwrt tree (linux-2.6.28.fa2, Faraday GM8181 platform).

The header consists, after comment stripping (translation phase 3), of the
directive sequence

  #ifndef __GM_PLATFORM_VMALLOC_HEADER__
  #define __GM_PLATFORM_VMALLOC_HEADER__
  #ifndef VMALLOC_END
  #define VMALLOC_END 0xe0000000
  #endif
  #endif

We embed the relevant fragment of the C preprocessor shallowly: a
preprocessing state is the macro symbol table (name to replacement text),
and processing a file threads that state through the file's lines,
tracking the conditional-inclusion stack, the tokens emitted into the
translation unit, and the diagnostics produced (macro redefinition with a
different body, stray `#endif`, unterminated conditional).
-/

/-- A preprocessing state: the macro symbol table. `defs n = some b` means
macro `n` is defined with replacement text `b`; `none` means undefined. -/
structure PPState where
  defs : String → Option String

/-- The preprocessor directives occurring in the header. -/
inductive Directive where
  | ifndefDir : String → Directive
  | defineDir : String → String → Directive
  | endifDir : Directive

/-- A line of a source file after comment stripping: either a text line
carrying the tokens it contributes to the translation unit (a line that was
blank or pure comment carries none), or a preprocessing directive. -/
inductive Line where
  | text : List String → Line
  | dir : Directive → Line

/-- The outcome of preprocessing a file: the final symbol table, the tokens
emitted into the translation unit, and the diagnostics produced. -/
structure PPResult where
  state : PPState
  output : List String
  diags : List String

/-- Define macro `n` with replacement text `b` in the symbol table. -/
def defineSym (st : PPState) (n b : String) : PPState :=
  ⟨fun m => if m = n then some b else st.defs m⟩

/-- Run the preprocessor over a list of lines. `stack` is the conditional
stack: one boolean per open `#ifndef`, true when that branch is active; a
line is processed only when every enclosing conditional is active. A
`#define` of an already-defined macro with a different replacement text
yields a redefinition diagnostic, as in C; a stray `#endif` and an
unterminated conditional also yield diagnostics. -/
def runLines : List Line → PPState → List Bool → List String → List String → PPResult
  | [], st, stack, out, diags =>
      ⟨st, out, if stack = [] then diags else diags ++ ["unterminated conditional"]⟩
  | Line.text toks :: ls, st, stack, out, diags =>
      if stack.all (fun c => c) then runLines ls st stack (out ++ toks) diags
      else runLines ls st stack out diags
  | Line.dir (Directive.ifndefDir n) :: ls, st, stack, out, diags =>
      runLines ls st ((stack.all (fun c => c) && (st.defs n).isNone) :: stack) out diags
  | Line.dir (Directive.defineDir n b) :: ls, st, stack, out, diags =>
      if stack.all (fun c => c) then
        match st.defs n with
        | some old =>
            if old = b then runLines ls (defineSym st n b) stack out diags
            else runLines ls (defineSym st n b) stack out (diags ++ ["redefinition: " ++ n])
        | none => runLines ls (defineSym st n b) stack out diags
      else runLines ls st stack out diags
  | Line.dir Directive.endifDir :: ls, st, stack, out, diags =>
      match stack with
      | [] => runLines ls st [] out (diags ++ ["endif without matching conditional"])
      | _ :: rest => runLines ls st rest out diags

/-- The include-guard macro name of the header. -/
def guardName : String := "__GM_PLATFORM_VMALLOC_HEADER__"

/-- The macro name defined by the header. -/
def vmallocEndName : String := "VMALLOC_END"

/-- The replacement text of the header's default definition of
`VMALLOC_END`: the token `0xe0000000` from line 31 of the source. -/
def vmallocDefaultBody : String := "0xe0000000"

/-- The header file, line by line, after comment stripping: the leading
block comment and the blank lines carry no tokens; the six directives are
those of lines 27 to 34 of the source. -/
def vmallocHeaderLines : List Line :=
  [ Line.text [],
    Line.dir (Directive.ifndefDir guardName),
    Line.dir (Directive.defineDir guardName ""),
    Line.text [],
    Line.dir (Directive.ifndefDir vmallocEndName),
    Line.dir (Directive.defineDir vmallocEndName vmallocDefaultBody),
    Line.dir Directive.endifDir,
    Line.text [],
    Line.dir Directive.endifDir ]

/-- Process the header once, starting from symbol table `st`. -/
def processVmallocHeader (st : PPState) : PPResult :=
  runLines vmallocHeaderLines st [] [] []

/-- Value of a hexadecimal digit character, if it is one. -/
def hexDigitVal (c : Char) : Option Nat :=
  if '0' ≤ c ∧ c ≤ '9' then some (c.toNat - '0'.toNat)
  else if 'a' ≤ c ∧ c ≤ 'f' then some (c.toNat - 'a'.toNat + 10)
  else if 'A' ≤ c ∧ c ≤ 'F' then some (c.toNat - 'A'.toNat + 10)
  else none

/-- Accumulate the value of a list of hexadecimal digit characters. -/
def parseHexDigits : List Char → Nat → Option Nat
  | [], acc => some acc
  | c :: cs, acc =>
      match hexDigitVal c with
      | some d => parseHexDigits cs (acc * 16 + d)
      | none => none

/-- Parse a C hexadecimal integer literal of the form `0x...`. -/
def parseHex (s : String) : Option Nat :=
  match s.toList with
  | '0' :: 'x' :: ds => if ds = [] then none else parseHexDigits ds 0
  | _ => none

/-- The empty symbol table: no macro is defined. -/
def emptyTable : PPState := ⟨fun _ => none⟩

/-- A table in which only `VMALLOC_END` is defined, to `0xd0000000`. -/
def overrideTable : PPState :=
  ⟨fun n => if n = "VMALLOC_END" then some "0xd0000000" else none⟩

/-- A table in which only the guard macro is defined (a name collision
predating the first inclusion of the header). -/
def guardCollisionTable : PPState :=
  ⟨fun n => if n = guardName then some "" else none⟩

/-- A table in which only an unrelated macro is defined. -/
def otherTable : PPState :=
  ⟨fun n => if n = "OTHER_MACRO" then some "1" else none⟩

lemma defineSym_defs_self (st : PPState) (n b : String) :
    (defineSym st n b).defs n = some b := by
  simp [defineSym]

lemma defineSym_defs_other (st : PPState) (n b m : String) (h : m ≠ n) :
    (defineSym st n b).defs m = st.defs m := by
  simp [defineSym, h]

lemma vmalloc_ne_guard : vmallocEndName ≠ guardName := by decide

lemma guard_ne_vmalloc : guardName ≠ vmallocEndName := by decide

lemma process_guard_defined (st : PPState) (g : String)
    (hg : st.defs guardName = some g) :
    processVmallocHeader st = ⟨st, [], []⟩ := by
  simp [processVmallocHeader, vmallocHeaderLines, runLines, hg]

lemma process_vmalloc_defined (st : PPState) (w : String)
    (hg : st.defs guardName = none) (hv : st.defs vmallocEndName = some w) :
    processVmallocHeader st = ⟨defineSym st guardName "", [], []⟩ := by
  simp [processVmallocHeader, vmallocHeaderLines, runLines, hg, hv,
    defineSym_defs_other st guardName "" vmallocEndName vmalloc_ne_guard]

lemma process_both_undefined (st : PPState)
    (hg : st.defs guardName = none) (hv : st.defs vmallocEndName = none) :
    processVmallocHeader st =
      ⟨defineSym (defineSym st guardName "") vmallocEndName vmallocDefaultBody, [], []⟩ := by
  simp [processVmallocHeader, vmallocHeaderLines, runLines, hg, hv,
    defineSym_defs_other st guardName "" vmallocEndName vmalloc_ne_guard]

lemma defs_after_default (st : PPState)
    (hg : st.defs guardName = none) (hv : st.defs vmallocEndName = none) :
    (processVmallocHeader st).state.defs vmallocEndName = some vmallocDefaultBody := by
  rw [process_both_undefined st hg hv]
  exact defineSym_defs_self _ vmallocEndName vmallocDefaultBody

lemma defs_after_override (st : PPState) (V : String)
    (hv : st.defs vmallocEndName = some V) :
    (processVmallocHeader st).state.defs vmallocEndName = some V := by
  match hg : st.defs guardName with
  | some g =>
      rw [process_guard_defined st g hg]
      exact hv
  | none =>
      rw [process_vmalloc_defined st V hg hv]
      rw [defineSym_defs_other st guardName "" vmallocEndName vmalloc_ne_guard]
      exact hv

/-- Claim C1: if neither `VMALLOC_END` nor the guard macro
`__GM_PLATFORM_VMALLOC_HEADER__` is defined before the header is included,
then after processing the header `VMALLOC_END` is defined and expands to
exactly `0xe0000000`. -/
theorem c1_default_installed (st : PPState)
    (hg : st.defs guardName = none) (hv : st.defs vmallocEndName = none) :
    (processVmallocHeader st).state.defs vmallocEndName = some "0xe0000000" :=
  defs_after_default st hg hv

/-- Witness for C1 at the empty symbol table. -/
theorem c1_witness :
    (emptyTable.defs guardName = none ∧ emptyTable.defs vmallocEndName = none) ∧
    (processVmallocHeader emptyTable).state.defs vmallocEndName = some "0xe0000000" :=
  ⟨⟨rfl, rfl⟩, c1_default_installed emptyTable rfl rfl⟩

/-- Claim C2: if `VMALLOC_END` is already defined to some value `V` before
the header is included, then after processing it still expands to `V`: the
earlier definition takes precedence over the header's default. -/
theorem c2_override_wins (st : PPState) (V : String)
    (hv : st.defs vmallocEndName = some V) :
    (processVmallocHeader st).state.defs vmallocEndName = some V :=
  defs_after_override st V hv

/-- Witness for C2 at a table predefining `VMALLOC_END` to `0xd0000000`. -/
theorem c2_witness :
    overrideTable.defs vmallocEndName = some "0xd0000000" ∧
    (processVmallocHeader overrideTable).state.defs vmallocEndName = some "0xd0000000" :=
  ⟨rfl, c2_override_wins overrideTable "0xd0000000" rfl⟩

lemma guard_defined_after (st : PPState) :
    ∃ g, (processVmallocHeader st).state.defs guardName = some g := by
  match hg : st.defs guardName with
  | some g =>
      rw [process_guard_defined st g hg]
      exact ⟨g, hg⟩
  | none =>
      match hv : st.defs vmallocEndName with
      | some w =>
          rw [process_vmalloc_defined st w hg hv]
          exact ⟨"", defineSym_defs_self st guardName ""⟩
      | none =>
          rw [process_both_undefined st hg hv]
          rw [defineSym_defs_other _ vmallocEndName vmallocDefaultBody guardName guard_ne_vmalloc]
          exact ⟨"", defineSym_defs_self st guardName ""⟩

/-- Claim C3: processing the header a second time, from the state produced
by a first processing, changes nothing, emits no tokens and produces no
diagnostic (in particular no redefinition diagnostic), so inclusion is
idempotent. -/
theorem c3_second_inclusion_noop (st : PPState) :
    processVmallocHeader (processVmallocHeader st).state =
      ⟨(processVmallocHeader st).state, [], []⟩ := by
  obtain ⟨g, hg⟩ := guard_defined_after st
  exact process_guard_defined _ g hg

/-- Claim C4 counterexample: in the preprocessing state in which the guard
macro is already defined (a name collision) and `VMALLOC_END` is not,
`VMALLOC_END` is still undefined after the header is processed, refuting
the claim that it is defined after processing from every state. -/
theorem c4_counterexample :
    guardCollisionTable.defs vmallocEndName = none ∧
    (processVmallocHeader guardCollisionTable).state.defs vmallocEndName = none := by
  constructor
  · decide
  · decide

/-- Claim C4 as amended: for every preprocessing state in which the guard
macro is not already defined, or `VMALLOC_END` is already defined, after
the header is processed `VMALLOC_END` is defined. -/
theorem c4_amended_defined_after (st : PPState)
    (h : st.defs guardName = none ∨ (st.defs vmallocEndName).isSome) :
    ((processVmallocHeader st).state.defs vmallocEndName).isSome := by
  match hv : st.defs vmallocEndName with
  | some w =>
      rw [defs_after_override st w hv]
      rfl
  | none =>
      match hg : st.defs guardName with
      | some g =>
          rcases h with h1 | h2
          · rw [hg] at h1
            cases h1
          · rw [hv] at h2
            cases h2
      | none =>
          rw [defs_after_default st hg hv]
          rfl

/-- Witness for the amended C4 at the empty symbol table. -/
theorem c4_witness :
    (emptyTable.defs guardName = none ∨ (emptyTable.defs vmallocEndName).isSome) ∧
    ((processVmallocHeader emptyTable).state.defs vmallocEndName).isSome :=
  ⟨Or.inl rfl, c4_amended_defined_after emptyTable (Or.inl rfl)⟩

/-- Claim C5: processing the header changes at most the two symbols
`VMALLOC_END` and `__GM_PLATFORM_VMALLOC_HEADER__` in the symbol table —
every other symbol's definedness and expansion is unchanged — and the
header emits no tokens into the translation unit. -/
theorem c5_frame (st : PPState) (n : String)
    (hn1 : n ≠ vmallocEndName) (hn2 : n ≠ guardName) :
    (processVmallocHeader st).state.defs n = st.defs n ∧
    (processVmallocHeader st).output = [] := by
  match hg : st.defs guardName with
  | some g =>
      rw [process_guard_defined st g hg]
      exact ⟨rfl, rfl⟩
  | none =>
      match hv : st.defs vmallocEndName with
      | some w =>
          rw [process_vmalloc_defined st w hg hv]
          exact ⟨defineSym_defs_other st guardName "" n hn2, rfl⟩
      | none =>
          rw [process_both_undefined st hg hv]
          refine ⟨?_, rfl⟩
          rw [defineSym_defs_other _ vmallocEndName vmallocDefaultBody n hn1]
          exact defineSym_defs_other st guardName "" n hn2

/-- Witness for C5 at the empty symbol table and the unrelated name
`OTHER_MACRO`. -/
theorem c5_witness :
    ("OTHER_MACRO" ≠ vmallocEndName ∧ "OTHER_MACRO" ≠ guardName) ∧
    ((processVmallocHeader emptyTable).state.defs "OTHER_MACRO" =
        emptyTable.defs "OTHER_MACRO" ∧
      (processVmallocHeader emptyTable).output = []) :=
  ⟨⟨by decide, by decide⟩, c5_frame emptyTable "OTHER_MACRO" (by decide) (by decide)⟩

/-- Claim C6: processing the header never fails and never emits a
diagnostic, from every prior preprocessing state; in particular an earlier
definition of `VMALLOC_END` silently overrides the default. -/
theorem c6_no_diagnostics (st : PPState) :
    (processVmallocHeader st).diags = [] := by
  match hg : st.defs guardName with
  | some g =>
      rw [process_guard_defined st g hg]
  | none =>
      match hv : st.defs vmallocEndName with
      | some w => rw [process_vmalloc_defined st w hg hv]
      | none => rw [process_both_undefined st hg hv]

/-- Claim C7: the header's default replacement text `0xe0000000` parses as
the value 3758096384, which is representable in a 32-bit unsigned integer
without truncation. -/
theorem c7_value_representable :
    parseHex vmallocDefaultBody = some 0xe0000000 ∧ (0xe0000000 : Nat) < 2 ^ 32 := by
  constructor
  · decide
  · decide

/-- Claim C8: if the guard macro is already defined before the first
inclusion (for example by a name collision), the header's body is skipped
entirely: the symbol table is unchanged, and in particular `VMALLOC_END`
stays undefined if it was undefined, so the default is never installed. -/
theorem c8_guard_collision_skips (st : PPState) (g : String)
    (hg : st.defs guardName = some g) :
    (processVmallocHeader st).state.defs = st.defs ∧
    (st.defs vmallocEndName = none →
      (processVmallocHeader st).state.defs vmallocEndName = none) := by
  rw [process_guard_defined st g hg]
  exact ⟨rfl, fun h => h⟩

/-- Witness for C8 at the table predefining only the guard macro. -/
theorem c8_witness :
    guardCollisionTable.defs guardName = some "" ∧
    ((processVmallocHeader guardCollisionTable).state.defs = guardCollisionTable.defs ∧
      (guardCollisionTable.defs vmallocEndName = none →
        (processVmallocHeader guardCollisionTable).state.defs vmallocEndName = none)) :=
  ⟨by decide, c8_guard_collision_skips guardCollisionTable "" (by decide)⟩

/-- Claim C9: processing the header is deterministic and its outcome
depends only on the definedness and values of `VMALLOC_END` and
`__GM_PLATFORM_VMALLOC_HEADER__`: two runs from states that agree on those
two symbols agree on them afterwards and produce the same output tokens
and the same diagnostics. -/
theorem c9_deterministic (s t : PPState)
    (hG : s.defs guardName = t.defs guardName)
    (hV : s.defs vmallocEndName = t.defs vmallocEndName) :
    (processVmallocHeader s).state.defs guardName =
        (processVmallocHeader t).state.defs guardName ∧
    (processVmallocHeader s).state.defs vmallocEndName =
        (processVmallocHeader t).state.defs vmallocEndName ∧
    (processVmallocHeader s).output = (processVmallocHeader t).output ∧
    (processVmallocHeader s).diags = (processVmallocHeader t).diags := by
  match hg : s.defs guardName with
  | some g =>
      rw [process_guard_defined s g hg, process_guard_defined t g (hG ▸ hg)]
      exact ⟨hG, hV, rfl, rfl⟩
  | none =>
      match hv : s.defs vmallocEndName with
      | some w =>
          rw [process_vmalloc_defined s w hg hv,
            process_vmalloc_defined t w (hG ▸ hg) (hV ▸ hv)]
          refine ⟨?_, ?_, rfl, rfl⟩
          · rw [defineSym_defs_self s guardName "", defineSym_defs_self t guardName ""]
          · rw [defineSym_defs_other s guardName "" vmallocEndName vmalloc_ne_guard,
              defineSym_defs_other t guardName "" vmallocEndName vmalloc_ne_guard, hV]
      | none =>
          rw [process_both_undefined s hg hv,
            process_both_undefined t (hG ▸ hg) (hV ▸ hv)]
          refine ⟨?_, ?_, rfl, rfl⟩
          · rw [defineSym_defs_other _ vmallocEndName vmallocDefaultBody guardName
                guard_ne_vmalloc,
              defineSym_defs_other _ vmallocEndName vmallocDefaultBody guardName
                guard_ne_vmalloc,
              defineSym_defs_self s guardName "", defineSym_defs_self t guardName ""]
          · rw [defineSym_defs_self _ vmallocEndName vmallocDefaultBody,
              defineSym_defs_self _ vmallocEndName vmallocDefaultBody]

/-- Witness for C9 at two concrete states that agree on the two symbols
but differ on an unrelated macro. -/
theorem c9_witness :
    (emptyTable.defs guardName = otherTable.defs guardName ∧
      emptyTable.defs vmallocEndName = otherTable.defs vmallocEndName) ∧
    ((processVmallocHeader emptyTable).state.defs guardName =
        (processVmallocHeader otherTable).state.defs guardName ∧
      (processVmallocHeader emptyTable).state.defs vmallocEndName =
        (processVmallocHeader otherTable).state.defs vmallocEndName ∧
      (processVmallocHeader emptyTable).output = (processVmallocHeader otherTable).output ∧
      (processVmallocHeader emptyTable).diags = (processVmallocHeader otherTable).diags) :=
  ⟨⟨by decide, by decide⟩, c9_deterministic emptyTable otherTable (by decide) (by decide)⟩

/-- Claim C10: processing the header never undefines or changes a macro
that was already defined: every pre-existing definition, including a
pre-existing `VMALLOC_END`, is preserved verbatim. -/
theorem c10_definitions_preserved (st : PPState) (n v : String)
    (h : st.defs n = some v) :
    (processVmallocHeader st).state.defs n = some v := by
  match hg : st.defs guardName with
  | some g =>
      rw [process_guard_defined st g hg]
      exact h
  | none =>
      have hn2 : n ≠ guardName := by
        intro e
        rw [e, hg] at h
        cases h
      match hv : st.defs vmallocEndName with
      | some w =>
          rw [process_vmalloc_defined st w hg hv]
          rw [defineSym_defs_other st guardName "" n hn2]
          exact h
      | none =>
          have hn1 : n ≠ vmallocEndName := by
            intro e
            rw [e, hv] at h
            cases h
          rw [process_both_undefined st hg hv]
          rw [defineSym_defs_other _ vmallocEndName vmallocDefaultBody n hn1]
          rw [defineSym_defs_other st guardName "" n hn2]
          exact h

/-- Witness for C10 at a table predefining the unrelated macro
`OTHER_MACRO` to `1`. -/
theorem c10_witness :
    otherTable.defs "OTHER_MACRO" = some "1" ∧
    (processVmallocHeader otherTable).state.defs "OTHER_MACRO" = some "1" :=
  ⟨by decide, c10_definitions_preserved otherTable "OTHER_MACRO" "1" (by decide)⟩
